import Mathlib

/-!
Verification of the backup-scheduling tracker
(`src/vs/workbench/contrib/backup/common/backupTracker.ts`).

The tracker is a single-threaded, event-driven debounce/discard scheduler.
We embed it as a transition system over an explicit `TrackerState`:

* `pendingBackups` embeds the `Map<URI, IDisposable>` field: an association
  list from a resource identifier to the identifier of the timer whose
  cancellation the stored disposable wraps (`toDisposable(() => clearTimeout(handle))`).
  Resources (`URI`) are embedded as `Nat` values compared by identity.
* `liveTimers` embeds the runtime's set of scheduled-but-not-yet-fired,
  not-yet-cancelled `setTimeout` timers.  Each carries its identity, the
  resource of the model captured by its callback closure, and its absolute
  fire time.  `clearTimeout` removes a timer from this set; a timer that is
  not live never fires.
* `backupCalls` and `discardCalls` are observation logs of the calls made to
  the external collaborators `model.backup()` and
  `backupFileService.discardResourceBackup(resource)` (most recent first).
* Dirtiness (`isDirty()`) is an observation of external model state, so every
  point where the source queries it takes the observed value as a parameter.
* Event handlers take the current time `now` as a parameter where they may
  schedule a timer; single-threaded cooperative delivery means a handler body
  runs atomically at one instant, so the dirtiness of a working copy and of
  its resolved model coincide within one synchronous handler invocation.
-/

namespace BackupTrackerSpec

/-- Constant `BackupTracker.DISABLE_BACKUP_AUTO_SAVE_THRESHOLD = 1500`. -/
def DISABLE_BACKUP_AUTO_SAVE_THRESHOLD : Int := 1500

/-- Constant `BackupTracker.BACKUP_FROM_CONTENT_CHANGE_DELAY = 1000`. -/
def BACKUP_FROM_CONTENT_CHANGE_DELAY : Nat := 1000

/-- A scheduled `setTimeout` timer: its identity (the JS handle), the resource
of the model captured by its callback closure, and the absolute time at which
it fires (scheduling time + `BACKUP_FROM_CONTENT_CHANGE_DELAY`). -/
structure Timer where
  id : Nat
  resource : Nat
  fireAt : Nat
deriving DecidableEq, Repr

/-- The mutable state of a `BackupTracker` instance together with the
runtime's timer table and the logs of calls to external collaborators. -/
structure TrackerState where
  /-- Field `private backupsDisabledForAutoSaveables = false`. -/
  backupsDisabledForAutoSaveables : Bool
  /-- Field `private readonly pendingBackups = new Map<URI, IDisposable>()`:
  resource ↦ id of the timer the stored disposable cancels. -/
  pendingBackups : List (Nat × Nat)
  /-- Timers scheduled by `setTimeout` that have neither fired nor been
  cancelled by `clearTimeout`. -/
  liveTimers : List Timer
  /-- Source of fresh timer identities. -/
  nextTimerId : Nat
  /-- Log of `model.backup()` invocations: (resource, time), newest first. -/
  backupCalls : List (Nat × Nat)
  /-- Log of `backupFileService.discardResourceBackup(resource)` invocations,
  newest first. -/
  discardCalls : List Nat
  /-- Whether the six event subscriptions made in `registerListeners` are
  still registered. -/
  listenersActive : Bool
deriving DecidableEq, Repr

/-- State after the constructor ran: flag false, empty map, no timers,
listeners registered. -/
def initialState : TrackerState :=
  { backupsDisabledForAutoSaveables := false
    pendingBackups := []
    liveTimers := []
    nextTimerId := 0
    backupCalls := []
    discardCalls := []
    listenersActive := true }

/-- Embeds `this.pendingBackups.get(resource)`: the timer id held for `resource`,
if any. -/
def lookupPending (s : TrackerState) (resource : Nat) : Option Nat :=
  (s.pendingBackups.find? (fun p => p.1 == resource)).map (fun p => p.2)

/-- Embeds `dispose(this.pendingBackups.get(resource))`: run the stored disposable,
i.e. `clearTimeout` on the associated timer; `dispose(undefined)` is a no-op.
Only the runtime timer table changes. -/
def clearPendingTimer (s : TrackerState) (resource : Nat) : TrackerState :=
  { s with liveTimers :=
      match lookupPending s resource with
      | some id => s.liveTimers.filter (fun t => t.id != id)
      | none => s.liveTimers }

/-- Embeds `this.pendingBackups.delete(resource)`. -/
def deletePending (s : TrackerState) (resource : Nat) : TrackerState :=
  { s with pendingBackups := s.pendingBackups.filter (fun p => p.1 != resource) }

/-- Embeds `private backupModel(model)`.  `isDirty` is the value `model.isDirty()`
returns at this instant, `now` the current time.  Mirrors the source: first
`dispose(this.pendingBackups.get(model.resource))` and
`this.pendingBackups.delete(model.resource)`; then, if dirty, schedule a new
timer for `BACKUP_FROM_CONTENT_CHANGE_DELAY` and store its cancellation in
the map. -/
def backupModel (s : TrackerState) (resource : Nat) (isDirty : Bool)
    (now : Nat) : TrackerState :=
  let s1 := deletePending (clearPendingTimer s resource) resource
  if isDirty then
    let handle : Timer :=
      { id := s1.nextTimerId
        resource := resource
        fireAt := now + BACKUP_FROM_CONTENT_CHANGE_DELAY }
    { s1 with
      liveTimers := handle :: s1.liveTimers
      nextTimerId := s1.nextTimerId + 1
      pendingBackups := (resource, handle.id) :: s1.pendingBackups }
  else s1

/-- The runtime fires the timer with identity `id`, if it is still live,
running the callback scheduled in `backupModel`: delete the map entry for the
closure's resource, then `model.backup()` if the model is still dirty
(`dirtyAtFire` is the value `model.isDirty()` returns at fire time).  A
cancelled or already-fired timer never fires again. -/
def fireTimer (s : TrackerState) (id : Nat) (dirtyAtFire : Bool) : TrackerState :=
  match s.liveTimers.find? (fun t => t.id == id) with
  | none => s
  | some t =>
    let s1 := { s with
      liveTimers := s.liveTimers.filter (fun u => u.id != id)
      pendingBackups := s.pendingBackups.filter (fun p => p.1 != t.resource) }
    if dirtyAtFire then
      { s1 with backupCalls := (t.resource, t.fireAt) :: s1.backupCalls }
    else s1

/-- Embeds `private discardBackup(resource)`: cancel and remove any pending entry,
then unconditionally `this.backupFileService.discardResourceBackup(resource)`. -/
def discardBackup (s : TrackerState) (resource : Nat) : TrackerState :=
  let s1 := deletePending (clearPendingTimer s resource) resource
  { s1 with discardCalls := resource :: s1.discardCalls }

/-- Embeds `private onAutoSaveConfigurationChange(configuration)`.  `autoSaveDelay`
is `none` when `configuration.autoSaveDelay` is not a number.  The source:
`this.backupsDisabledForAutoSaveables = typeof configuration.autoSaveDelay === 'number'
&& configuration.autoSaveDelay < BackupTracker.DISABLE_BACKUP_AUTO_SAVE_THRESHOLD`. -/
def onAutoSaveConfigurationChange (s : TrackerState)
    (autoSaveDelay : Option Int) : TrackerState :=
  { s with backupsDisabledForAutoSaveables :=
      match autoSaveDelay with
      | some d => decide (d < DISABLE_BACKUP_AUTO_SAVE_THRESHOLD)
      | none => false }

/-- The data of an `IWorkingCopy` observed by the content-change handler:
its resource, `isDirty()`, the `WorkingCopyCapabilities.Untitled` capability
bit, and whether `resource.scheme === Schemas.untitled`. -/
structure WorkingCopy where
  resource : Nat
  dirty : Bool
  capUntitled : Bool
  schemeUntitled : Bool
deriving DecidableEq, Repr

/-- Embeds `private onDidChangeWorkingCopyContent(workingCopy)`.  `fileModelPresent`
is whether `this.textFileService.models.get(workingCopy.resource)` returns a
model on the file branch.  On both resolution branches the resolved model is
the same document as the working copy, so `model.isDirty()` at this instant
is `wc.dirty`. -/
def onDidChangeWorkingCopyContent (s : TrackerState) (wc : WorkingCopy)
    (fileModelPresent : Bool) (now : Nat) : TrackerState :=
  if !wc.dirty then
    discardBackup s wc.resource
  else if s.backupsDisabledForAutoSaveables && !wc.capUntitled then
    s
  else if wc.schemeUntitled then
    backupModel s wc.resource wc.dirty now
  else if fileModelPresent then
    backupModel s wc.resource wc.dirty now
  else
    s

/-- Embeds `private onDidCreateUntitled(resource)`: if
`this.untitledTextEditorService.isDirty(resource)`, resolve the model and run
`backupModel` on it (`isDirty` is that query's result, which is also the
resolved model's dirtiness at this instant). -/
def onDidCreateUntitled (s : TrackerState) (resource : Nat) (isDirty : Bool)
    (now : Nat) : TrackerState :=
  if isDirty then backupModel s resource isDirty now else s

/-- Modelled from the spec: the `Disposable` base class
(`vs/base/common/lifecycle`, not under `src/`), whose `dispose()` releases
exactly the disposables collected through `_register` — per the spec,
subscription objects "collected into one disposal list owned by the
scheduler; release all on teardown".  `BackupTracker` registers only its six
event subscriptions, declares no `dispose` override, and never registers the
entries of `pendingBackups`, so disposal unsubscribes the listeners and
touches nothing else. -/
def disposeTracker (s : TrackerState) : TrackerState :=
  { s with listenersActive := false }

/-- One handler invocation or timer firing, with arbitrary inputs from the
external collaborators.  The four `discardBackup` steps are the
`onModelSaved`, `onModelReverted`, `onModelDisposed` and
`onDidDisposeModel` (untitled) subscriptions, each of which is
`e => this.discardBackup(e.resource)`. -/
inductive Step : TrackerState → TrackerState → Prop where
  | contentChange (s : TrackerState) (wc : WorkingCopy) (p : Bool) (now : Nat) :
      Step s (onDidChangeWorkingCopyContent s wc p now)
  | modelSaved (s : TrackerState) (r : Nat) : Step s (discardBackup s r)
  | modelReverted (s : TrackerState) (r : Nat) : Step s (discardBackup s r)
  | modelDisposed (s : TrackerState) (r : Nat) : Step s (discardBackup s r)
  | untitledDisposed (s : TrackerState) (r : Nat) : Step s (discardBackup s r)
  | untitledCreated (s : TrackerState) (r : Nat) (d : Bool) (now : Nat) :
      Step s (onDidCreateUntitled s r d now)
  | autoSaveConfig (s : TrackerState) (d : Option Int) :
      Step s (onAutoSaveConfigurationChange s d)
  | timerFired (s : TrackerState) (id : Nat) (d : Bool) :
      Step s (fireTimer s id d)
  | disposed (s : TrackerState) : Step s (disposeTracker s)

/-- States the tracker can reach from construction. -/
inductive Reachable : TrackerState → Prop where
  | init : Reachable initialState
  | step {s s' : TrackerState} : Reachable s → Step s s' → Reachable s'

/-- Number of entries the pending-backup map holds for `resource`. -/
def countPending (resource : Nat) (s : TrackerState) : Nat :=
  (s.pendingBackups.filter (fun p => p.1 == resource)).length

/-- Live timers whose callback closure captured `resource`. -/
def timersFor (resource : Nat) (s : TrackerState) : List Timer :=
  s.liveTimers.filter (fun t => t.resource == resource)

/-- Structural coherence between the map and the timer table: every stored
timer id was issued, and a live timer bearing a stored id belongs to the
entry's resource. -/
def WF (s : TrackerState) : Prop :=
  (∀ p ∈ s.pendingBackups, p.2 < s.nextTimerId) ∧
  (∀ p ∈ s.pendingBackups, ∀ t ∈ s.liveTimers, t.id = p.2 → t.resource = p.1)

instance : DecidablePred WF := fun s => by
  unfold WF; infer_instance

/-! ### List helper lemmas -/

/-- Filtering by a weaker predicate first does not change `find?`. -/
theorem find_after_filter_of_imp {α : Type} (p q : α → Bool)
    (h : ∀ x, p x = true → q x = true) (l : List α) :
    (l.filter q).find? p = l.find? p := by
  induction l with
  | nil => rfl
  | cons a l ih =>
    by_cases hq : q a = true
    · by_cases hp : p a = true
      · simp [List.filter_cons, hq, List.find?_cons, hp]
      · simp [List.filter_cons, hq, List.find?_cons, hp, ih]
    · have hp : ¬ p a = true := fun hpa => hq (h a hpa)
      simp [List.filter_cons, hq, List.find?_cons, hp, ih]

/-- Filtering by a disjoint predicate makes `find?` fail. -/
theorem find_after_filter_none {α : Type} (p q : α → Bool)
    (h : ∀ x, p x = true → q x = false) (l : List α) :
    (l.filter q).find? p = none := by
  rw [List.find?_eq_none]
  intro x hx hp
  have hq := (List.mem_filter.mp hx).2
  rw [h x hp] at hq
  exact Bool.false_ne_true hq

/-- Filtering by a predicate implied on members of `l` is absorbed. -/
theorem filter_after_filter_of_imp {α : Type} (p q : α → Bool) (l : List α)
    (h : ∀ x ∈ l, p x = true → q x = true) :
    (l.filter q).filter p = l.filter p := by
  induction l with
  | nil => rfl
  | cons a l ih =>
    have ih2 := ih (fun x hx => h x (List.mem_cons_of_mem a hx))
    by_cases hq : q a = true
    · by_cases hp : p a = true
      · simp [List.filter_cons, hq, hp, ih2]
      · simp [List.filter_cons, hq, hp, ih2]
    · have hp : ¬ p a = true := fun hpa => hq (h a (List.mem_cons_self a l) hpa)
      simp [List.filter_cons, hq, hp, ih2]

/-! ### Projection lemmas for the embedded operations -/

theorem pendingBackups_clearPendingTimer (s : TrackerState) (r : Nat) :
    (clearPendingTimer s r).pendingBackups = s.pendingBackups := rfl

theorem nextTimerId_clearPendingTimer (s : TrackerState) (r : Nat) :
    (clearPendingTimer s r).nextTimerId = s.nextTimerId := rfl

theorem liveTimers_deletePending (s : TrackerState) (r : Nat) :
    (deletePending s r).liveTimers = s.liveTimers := rfl

theorem pendingBackups_deletePending (s : TrackerState) (r : Nat) :
    (deletePending s r).pendingBackups =
      s.pendingBackups.filter (fun p => p.1 != r) := rfl

/-- A successful map lookup yields a genuine entry of the map. -/
theorem lookupPending_mem {s : TrackerState} {r id : Nat}
    (h : lookupPending s r = some id) : (r, id) ∈ s.pendingBackups := by
  unfold lookupPending at h
  cases hf : s.pendingBackups.find? (fun p => p.1 == r) with
  | none => rw [hf] at h; exact absurd h (by simp)
  | some q =>
    rw [hf] at h
    have hmem := List.mem_of_find?_eq_some hf
    have hkey : (q.1 == r) = true := (List.find?_eq_some.mp hf).1
    have h1 : q.1 = r := by simpa using hkey
    have h2 : q.2 = id := by simpa using h
    have : q = (r, id) := by
      cases q; simp_all
    rwa [this] at hmem

/-! ### Counting entries of the pending-backup map -/

theorem filter_self_after_delete (l : List (Nat × Nat)) (r : Nat) :
    (l.filter (fun p => p.1 != r)).filter (fun p => p.1 == r) = [] := by
  rw [List.filter_eq_nil_iff]
  intro a ha
  have hq := (List.mem_filter.mp ha).2
  simp only [bne_iff_ne, ne_eq, decide_eq_true_eq] at hq
  simp [hq]

theorem count_filter_le (l : List (Nat × Nat)) (q : Nat × Nat → Bool) (r : Nat) :
    ((l.filter q).filter (fun p => p.1 == r)).length ≤
      (l.filter (fun p => p.1 == r)).length :=
  ((List.filter_sublist l).filter _).length_le

theorem pendingBackups_discardBackup (s : TrackerState) (r : Nat) :
    (discardBackup s r).pendingBackups =
      s.pendingBackups.filter (fun p => p.1 != r) := rfl

theorem pendingBackups_onAutoSaveConfigurationChange (s : TrackerState)
    (d : Option Int) :
    (onAutoSaveConfigurationChange s d).pendingBackups = s.pendingBackups := rfl

theorem pendingBackups_disposeTracker (s : TrackerState) :
    (disposeTracker s).pendingBackups = s.pendingBackups := rfl

theorem countPending_backupModel_self_le (s : TrackerState) (r : Nat) (d : Bool)
    (now : Nat) : countPending r (backupModel s r d now) ≤ 1 := by
  unfold backupModel countPending
  cases d with
  | false =>
    simp only [Bool.false_eq_true, if_false, pendingBackups_deletePending,
      pendingBackups_clearPendingTimer, filter_self_after_delete]
    exact Nat.zero_le 1
  | true =>
    simp only [if_true, pendingBackups_deletePending, pendingBackups_clearPendingTimer]
    rw [List.filter_cons]
    simp only [beq_self_eq_true, if_true, filter_self_after_delete]
    exact Nat.le_refl 1

theorem countPending_backupModel_other (s : TrackerState) {r r2 : Nat} (d : Bool)
    (now : Nat) (h : r2 ≠ r) :
    countPending r2 (backupModel s r d now) = countPending r2 s := by
  have heq := filter_after_filter_of_imp (fun p => p.1 == r2) (fun p => p.1 != r)
    s.pendingBackups (by
      intro x hx hp
      have hx1 : x.1 = r2 := by simpa using hp
      simp [hx1, h])
  unfold backupModel countPending
  cases d with
  | false =>
    simp only [Bool.false_eq_true, if_false, pendingBackups_deletePending,
      pendingBackups_clearPendingTimer]
    rw [heq]
  | true =>
    simp only [if_true, pendingBackups_deletePending, pendingBackups_clearPendingTimer]
    rw [List.filter_cons]
    have : (r == r2) = false := by
      simp [Ne.symm h]
    simp only [this, Bool.false_eq_true, if_false]
    rw [heq]

theorem countPending_backupModel_le (s : TrackerState) (r0 r : Nat) (d : Bool)
    (now : Nat) (h : countPending r s ≤ 1) :
    countPending r (backupModel s r0 d now) ≤ 1 := by
  by_cases hr : r = r0
  · subst hr; exact countPending_backupModel_self_le s r d now
  · rw [countPending_backupModel_other s d now hr]; exact h

theorem countPending_discardBackup_le (s : TrackerState) (r0 r : Nat)
    (h : countPending r s ≤ 1) : countPending r (discardBackup s r0) ≤ 1 := by
  unfold countPending
  rw [pendingBackups_discardBackup]
  exact le_trans (count_filter_le s.pendingBackups _ r) h

theorem countPending_fireTimer_le (s : TrackerState) (id : Nat) (d : Bool) (r : Nat)
    (h : countPending r s ≤ 1) : countPending r (fireTimer s id d) ≤ 1 := by
  unfold fireTimer
  cases hf : s.liveTimers.find? (fun t => t.id == id) with
  | none => exact h
  | some t =>
    cases d with
    | false =>
      simp only [Bool.false_eq_true, if_false]
      unfold countPending
      exact le_trans (count_filter_le s.pendingBackups _ r) h
    | true =>
      simp only [if_true]
      unfold countPending
      exact le_trans (count_filter_le s.pendingBackups _ r) h

theorem countPending_onDidChangeWorkingCopyContent_le (s : TrackerState)
    (wc : WorkingCopy) (p : Bool) (now : Nat) (r : Nat)
    (h : ∀ r0, countPending r0 s ≤ 1) :
    countPending r (onDidChangeWorkingCopyContent s wc p now) ≤ 1 := by
  unfold onDidChangeWorkingCopyContent
  split
  · exact countPending_discardBackup_le s wc.resource r (h r)
  · split
    · exact h r
    · split
      · exact countPending_backupModel_le s wc.resource r wc.dirty now (h r)
      · split
        · exact countPending_backupModel_le s wc.resource r wc.dirty now (h r)
        · exact h r

theorem countPending_onDidCreateUntitled_le (s : TrackerState) (r0 : Nat)
    (d : Bool) (now : Nat) (r : Nat) (h : countPending r s ≤ 1) :
    countPending r (onDidCreateUntitled s r0 d now) ≤ 1 := by
  unfold onDidCreateUntitled
  split
  · exact countPending_backupModel_le s r0 r d now h
  · exact h

/-- Every handler invocation and timer firing preserves the per-resource bound
on the pending-backup map. -/
theorem step_preserves_atMostOne {s s2 : TrackerState} (hs : Step s s2)
    (h : ∀ r, countPending r s ≤ 1) : ∀ r, countPending r s2 ≤ 1 := by
  intro r
  cases hs with
  | contentChange wc p now =>
    exact countPending_onDidChangeWorkingCopyContent_le s wc p now r h
  | modelSaved r0 => exact countPending_discardBackup_le s r0 r (h r)
  | modelReverted r0 => exact countPending_discardBackup_le s r0 r (h r)
  | modelDisposed r0 => exact countPending_discardBackup_le s r0 r (h r)
  | untitledDisposed r0 => exact countPending_discardBackup_le s r0 r (h r)
  | untitledCreated r0 d now => exact countPending_onDidCreateUntitled_le s r0 d now r (h r)
  | autoSaveConfig d =>
    unfold countPending
    rw [pendingBackups_onAutoSaveConfigurationChange]
    exact h r
  | timerFired id d => exact countPending_fireTimer_le s id d r (h r)
  | disposed =>
    unfold countPending
    rw [pendingBackups_disposeTracker]
    exact h r

/-! ### Concrete states used to instantiate the theorems -/

/-- A dirty, file-backed (non-untitled) working copy on resource 0. -/
def wcFile : WorkingCopy :=
  { resource := 0, dirty := true, capUntitled := false, schemeUntitled := false }

/-- A dirty untitled working copy on resource 7. -/
def wcUntitled : WorkingCopy :=
  { resource := 7, dirty := true, capUntitled := true, schemeUntitled := true }

/-- A non-dirty working copy on resource 0. -/
def wcClean : WorkingCopy :=
  { resource := 0, dirty := false, capUntitled := false, schemeUntitled := false }

/-- Tracker state reached from construction by one dirty content change on
resource 0 at time 0: one pending entry for resource 0, timer 0 firing at
1000. -/
def sOnePending : TrackerState :=
  onDidChangeWorkingCopyContent initialState wcFile true 0

/-- State reached from `sOnePending` by a dirty content change on resource 5
at time 200: pending entries for resources 5 and 0. -/
def sTwoPending : TrackerState :=
  onDidChangeWorkingCopyContent sOnePending
    { resource := 5, dirty := true, capUntitled := false, schemeUntitled := false }
    true 200

/-- State reached from `sOnePending` by configuring an auto-save delay of
500: suppression flag true while a pending entry for resource 0 exists. -/
def sSuppressed : TrackerState :=
  onAutoSaveConfigurationChange sOnePending (some 500)

/-! ### The claims -/

/-- C1: after every handler invocation and after every timer firing — i.e. in
every state the tracker can reach — the pending-backup map holds at most one
entry per resource. -/
theorem reachable_pending_at_most_one (s : TrackerState) (h : Reachable s) :
    ∀ r, countPending r s ≤ 1 := by
  induction h with
  | init => intro r; exact Nat.zero_le 1
  | step h1 h2 ih => exact step_preserves_atMostOne h2 ih

/-- C1 witness: the invariant instantiated at the reachable state holding one
pending entry for resource 0. -/
theorem reachable_pending_at_most_one_witness : countPending 0 sOnePending ≤ 1 :=
  reachable_pending_at_most_one sOnePending
    (Reachable.step Reachable.init (Step.contentChange initialState wcFile true 0)) 0

/-- C2 (amended): disposing the tracker only releases the event
subscriptions; it cancels no pending timer and does not clear the
pending-backup map — both survive disposal unchanged. -/
theorem disposeTracker_leaves_pending (s : TrackerState) :
    (disposeTracker s).pendingBackups = s.pendingBackups ∧
    (disposeTracker s).liveTimers = s.liveTimers ∧
    (disposeTracker s).backupsDisabledForAutoSaveables =
      s.backupsDisabledForAutoSaveables ∧
    (disposeTracker s).listenersActive = false :=
  ⟨rfl, rfl, rfl, rfl⟩

/-- C2 counterexample: a concrete reachable state with one pending backup in
which disposal leaves the timer live and the map entry in place, refuting
"after teardown completes zero live timers remain ... in any state the
scheduler can reach". -/
theorem disposeTracker_live_timer_counterexample :
    Reachable sOnePending ∧
    (disposeTracker sOnePending).liveTimers ≠ [] ∧
    (disposeTracker sOnePending).pendingBackups ≠ [] :=
  ⟨Reachable.step Reachable.init (Step.contentChange initialState wcFile true 0),
    by decide, by decide⟩

/-- C6: after an auto-save configuration change the suppression flag is true
iff the configured delay is a number strictly below the 1500 threshold. -/
theorem autoSave_flag_iff (s : TrackerState) (d : Option Int) :
    (onAutoSaveConfigurationChange s d).backupsDisabledForAutoSaveables = true ↔
      ∃ n : Int, d = some n ∧ n < DISABLE_BACKUP_AUTO_SAVE_THRESHOLD := by
  cases d with
  | none => simp [onAutoSaveConfigurationChange]
  | some n => simp [onAutoSaveConfigurationChange]

/-- C7: while suppression is active, a content change of a dirty working copy
without the untitled capability leaves the entire tracker state unchanged —
in particular a previously pending entry is left untouched, not cancelled. -/
theorem suppressed_content_change_noop (s : TrackerState) (wc : WorkingCopy)
    (p : Bool) (now : Nat) (hd : wc.dirty = true)
    (hf : s.backupsDisabledForAutoSaveables = true) (hc : wc.capUntitled = false) :
    onDidChangeWorkingCopyContent s wc p now = s := by
  simp [onDidChangeWorkingCopyContent, hd, hf, hc]

/-- C7 witness: in the suppressed state carrying a pending entry for resource
0, a dirty non-untitled content change on resource 0 changes nothing. -/
theorem suppressed_content_change_noop_witness :
    onDidChangeWorkingCopyContent sSuppressed wcFile true 700 = sSuppressed :=
  suppressed_content_change_noop sSuppressed wcFile true 700 rfl (by decide) rfl

/-- Scheduling while dirty stores the fresh timer id under the resource. -/
theorem lookupPending_backupModel_self (s : TrackerState) (r now : Nat) :
    lookupPending (backupModel s r true now) r = some s.nextTimerId := by
  show (List.find? (fun p => p.1 == r)
      ((r, s.nextTimerId) :: (deletePending (clearPendingTimer s r) r).pendingBackups)).map
      (fun p => p.2) = some s.nextTimerId
  rw [List.find?_cons_of_pos]
  · rfl
  · simp

/-- C8: a dirty working copy with the untitled capability (and untitled
resource scheme) is scheduled through the debounce procedure regardless of
the suppression flag, leaving a fresh pending entry for its resource. -/
theorem untitled_exempt_schedules (s : TrackerState) (wc : WorkingCopy)
    (p : Bool) (now : Nat) (hd : wc.dirty = true) (hc : wc.capUntitled = true)
    (hs2 : wc.schemeUntitled = true) :
    onDidChangeWorkingCopyContent s wc p now = backupModel s wc.resource true now ∧
    lookupPending (onDidChangeWorkingCopyContent s wc p now) wc.resource =
      some s.nextTimerId := by
  have h1 : onDidChangeWorkingCopyContent s wc p now =
      backupModel s wc.resource true now := by
    simp [onDidChangeWorkingCopyContent, hd, hc, hs2]
  exact ⟨h1, by rw [h1]; exact lookupPending_backupModel_self s wc.resource now⟩

/-- C8 witness: with suppression active, a dirty untitled copy still receives
a pending entry. -/
theorem untitled_exempt_schedules_witness :
    lookupPending (onDidChangeWorkingCopyContent sSuppressed wcUntitled true 0) 7 =
      some 1 :=
  (untitled_exempt_schedules sSuppressed wcUntitled true 0 rfl rfl rfl).2

/-- C9: a content change of a non-dirty working copy performs exactly the
discard procedure for its resource and nothing else. -/
theorem content_change_not_dirty_discards (s : TrackerState) (wc : WorkingCopy)
    (p : Bool) (now : Nat) (hd : wc.dirty = false) :
    onDidChangeWorkingCopyContent s wc p now = discardBackup s wc.resource := by
  simp [onDidChangeWorkingCopyContent, hd]

/-- C9 witness: a clean content change on resource 0 in the one-pending state
is exactly the discard procedure. -/
theorem content_change_not_dirty_discards_witness :
    onDidChangeWorkingCopyContent sOnePending wcClean true 42 =
      discardBackup sOnePending 0 :=
  content_change_not_dirty_discards sOnePending wcClean true 42 rfl

/-- C3: a second qualifying change before the pending delay elapses replaces
the entry: the fresh timer fires at the new change time plus the debounce
delay, and the previously scheduled timer is cancelled, so firing it is a
no-op — the backup runs at most once, timed from the last qualifying
change. -/
theorem backupModel_debounce_reset (s : TrackerState) (r oldId now : Nat)
    (b : Bool) (hwf : WF s) (h : lookupPending s r = some oldId) :
    lookupPending (backupModel s r true now) r = some s.nextTimerId ∧
    (backupModel s r true now).liveTimers.find?
        (fun t => t.id == s.nextTimerId) =
      some { id := s.nextTimerId, resource := r,
             fireAt := now + BACKUP_FROM_CONTENT_CHANGE_DELAY } ∧
    fireTimer (backupModel s r true now) oldId b = backupModel s r true now := by
  have hold : oldId < s.nextTimerId := hwf.1 (r, oldId) (lookupPending_mem h)
  have hclear : (clearPendingTimer s r).liveTimers =
      s.liveTimers.filter (fun t => t.id != oldId) := by
    unfold clearPendingTimer
    rw [h]
  have hlive0 : (backupModel s r true now).liveTimers =
      ({ id := s.nextTimerId, resource := r,
         fireAt := now + BACKUP_FROM_CONTENT_CHANGE_DELAY } : Timer) ::
        (clearPendingTimer s r).liveTimers := rfl
  refine ⟨lookupPending_backupModel_self s r now, ?_, ?_⟩
  · rw [hlive0, hclear, List.find?_cons_of_pos _ (by simp)]
  · have hnone : (backupModel s r true now).liveTimers.find?
        (fun t => t.id == oldId) = none := by
      rw [hlive0, hclear, List.find?_cons_of_neg _ (by
        simp only [beq_iff_eq]
        omega)]
      exact find_after_filter_none _ _ (by
        intro t ht
        have ht1 : t.id = oldId := by simpa using ht
        simp [ht1]) _
    unfold fireTimer
    rw [hnone]

/-- C3 witness: rescheduling resource 0 at time 500 in the one-pending state
moves the deadline to 1500 and makes firing the old timer a no-op. -/
theorem backupModel_debounce_reset_witness :
    lookupPending (backupModel sOnePending 0 true 500) 0 = some 1 ∧
    (backupModel sOnePending 0 true 500).liveTimers.find? (fun t => t.id == 1) =
      some { id := 1, resource := 0, fireAt := 1500 } ∧
    fireTimer (backupModel sOnePending 0 true 500) 0 true =
      backupModel sOnePending 0 true 500 :=
  backupModel_debounce_reset sOnePending 0 0 500 true (by decide) (by decide)

/-- C4: when a live timer fires with the model no longer dirty, the entry is
removed from the map and no backup call is made; firing a cancelled or
already-fired timer is a complete no-op, so the backup operation runs only
when the model is still dirty at expiry. -/
theorem fireTimer_not_dirty_no_backup (s : TrackerState) (id : Nat) (t : Timer)
    (h : s.liveTimers.find? (fun u => u.id == id) = some t) :
    (fireTimer s id false).backupCalls = s.backupCalls ∧
    lookupPending (fireTimer s id false) t.resource = none ∧
    (∀ (s2 : TrackerState) (j : Nat) (b : Bool),
      s2.liveTimers.find? (fun u => u.id == j) = none → fireTimer s2 j b = s2) := by
  refine ⟨?_, ?_, ?_⟩
  · unfold fireTimer
    rw [h]
    rfl
  · have hpb : (fireTimer s id false).pendingBackups =
        s.pendingBackups.filter (fun p => p.1 != t.resource) := by
      unfold fireTimer
      rw [h]
      rfl
    unfold lookupPending
    rw [hpb, find_after_filter_none (fun p => p.1 == t.resource)
      (fun p => p.1 != t.resource)
      (by
        intro x hx
        have hx1 : x.1 = t.resource := by simpa using hx
        simp [hx1])
      s.pendingBackups]
    rfl
  · intro s2 j b hb
    unfold fireTimer
    rw [hb]

/-- C4 witness: firing timer 0 in the one-pending state with the model clean
makes no backup call and leaves no entry for resource 0. -/
theorem fireTimer_not_dirty_no_backup_witness :
    (fireTimer sOnePending 0 false).backupCalls = [] ∧
    lookupPending (fireTimer sOnePending 0 false) 0 = none := by
  have h := fireTimer_not_dirty_no_backup sOnePending 0
    { id := 0, resource := 0, fireAt := 1000 } (by decide)
  exact ⟨h.1, h.2.1⟩

/-- C5: every invocation of the discard procedure pushes exactly one discard
request for the resource to the backup store, whether or not a pending entry
existed; any pending entry is removed from the map and its timer
cancelled. -/
theorem discardBackup_always_discards (s : TrackerState) (r : Nat) :
    (discardBackup s r).discardCalls = r :: s.discardCalls ∧
    lookupPending (discardBackup s r) r = none ∧
    (∀ id, lookupPending s r = some id →
      ∀ t ∈ (discardBackup s r).liveTimers, t.id ≠ id) := by
  refine ⟨rfl, ?_, ?_⟩
  · unfold lookupPending
    rw [pendingBackups_discardBackup, find_after_filter_none (fun p => p.1 == r)
      (fun p => p.1 != r)
      (by
        intro x hx
        have hx1 : x.1 = r := by simpa using hx
        simp [hx1])
      s.pendingBackups]
    rfl
  · intro id hid t ht
    have hlt : (discardBackup s r).liveTimers =
        s.liveTimers.filter (fun u => u.id != id) := by
      show (clearPendingTimer s r).liveTimers = _
      unfold clearPendingTimer
      rw [hid]
    rw [hlt] at ht
    have h2 := (List.mem_filter.mp ht).2
    simpa using h2

/-- C5 witness: discarding resource 0 in the one-pending state logs one
discard call and cancels timer 0; discarding resource 9, which has no
pending entry, still logs its discard call. -/
theorem discardBackup_always_discards_witness :
    (discardBackup sOnePending 0).discardCalls = [0] ∧
    (∀ t ∈ (discardBackup sOnePending 0).liveTimers, t.id ≠ 0) ∧
    (discardBackup sOnePending 9).discardCalls = [9] := by
  have h0 := discardBackup_always_discards sOnePending 0
  have h9 := discardBackup_always_discards sOnePending 9
  exact ⟨h0.1, h0.2.2 0 (by decide), h9.1⟩

/-- Deleting one resource's entry does not change lookups of another. -/
theorem lookupPending_delete_other (s : TrackerState) {r r2 : Nat} (h : r2 ≠ r) :
    lookupPending (deletePending s r) r2 = lookupPending s r2 := by
  unfold lookupPending
  rw [pendingBackups_deletePending,
    find_after_filter_of_imp (fun p => p.1 == r2) (fun p => p.1 != r)
      (by
        intro x hx
        have hx1 : x.1 = r2 := by simpa using hx
        simp [hx1, h])
      s.pendingBackups]

/-- Scheduling one resource does not change lookups of another. -/
theorem lookupPending_backupModel_other (s : TrackerState) {r r2 : Nat}
    (d : Bool) (now : Nat) (h : r2 ≠ r) :
    lookupPending (backupModel s r d now) r2 = lookupPending s r2 := by
  cases d with
  | false => exact lookupPending_delete_other (clearPendingTimer s r) h
  | true =>
    show (List.find? (fun p => p.1 == r2)
      ((r, s.nextTimerId) ::
        (deletePending (clearPendingTimer s r) r).pendingBackups)).map
      (fun p => p.2) = _
    rw [List.find?_cons_of_neg _ (by
      simp only [beq_iff_eq]
      exact Ne.symm h)]
    exact lookupPending_delete_other (clearPendingTimer s r) h

/-- Cancelling one resource's timer does not change live timers belonging to
another resource, in a well-formed state. -/
theorem timersFor_clearPendingTimer_other (s : TrackerState) {r r2 : Nat}
    (hwf : WF s) (hne : r2 ≠ r) :
    timersFor r2 (clearPendingTimer s r) = timersFor r2 s := by
  unfold timersFor clearPendingTimer
  cases hl : lookupPending s r with
  | none => rfl
  | some id =>
    exact filter_after_filter_of_imp _ _ s.liveTimers (by
      intro t ht hres
      have hres1 : t.resource = r2 := by simpa using hres
      have hid : t.id ≠ id := by
        intro hid0
        have hr := hwf.2 (r, id) (lookupPending_mem hl) t ht hid0
        exact hne (by rw [← hres1]; exact hr)
      simpa using hid)

/-- Scheduling one resource does not change live timers belonging to another
resource, in a well-formed state. -/
theorem timersFor_backupModel_other (s : TrackerState) {r r2 : Nat} (d : Bool)
    (now : Nat) (hwf : WF s) (hne : r2 ≠ r) :
    timersFor r2 (backupModel s r d now) = timersFor r2 s := by
  cases d with
  | false => exact timersFor_clearPendingTimer_other s hwf hne
  | true =>
    show List.filter (fun t => t.resource == r2)
      (({ id := s.nextTimerId, resource := r,
          fireAt := now + BACKUP_FROM_CONTENT_CHANGE_DELAY } : Timer) ::
        (clearPendingTimer s r).liveTimers) = _
    rw [List.filter_cons_of_neg (by
      simp only [beq_iff_eq]
      exact Ne.symm hne)]
    exact timersFor_clearPendingTimer_other s hwf hne

/-- C10: per-resource operations are frame-preserving across resources: in a
well-formed state, scheduling a backup for r or discarding r leaves the
pending entry and the live timers of any other resource r2 — presence,
identity and deadline — unchanged, and leaves the suppression flag
unchanged. -/
theorem per_resource_frame (s : TrackerState) (r r2 : Nat) (d : Bool)
    (now : Nat) (hwf : WF s) (hne : r2 ≠ r) :
    lookupPending (backupModel s r d now) r2 = lookupPending s r2 ∧
    timersFor r2 (backupModel s r d now) = timersFor r2 s ∧
    (backupModel s r d now).backupsDisabledForAutoSaveables =
      s.backupsDisabledForAutoSaveables ∧
    lookupPending (discardBackup s r) r2 = lookupPending s r2 ∧
    timersFor r2 (discardBackup s r) = timersFor r2 s ∧
    (discardBackup s r).backupsDisabledForAutoSaveables =
      s.backupsDisabledForAutoSaveables := by
  refine ⟨lookupPending_backupModel_other s d now hne,
    timersFor_backupModel_other s d now hwf hne, ?_,
    lookupPending_delete_other (clearPendingTimer s r) hne,
    timersFor_clearPendingTimer_other s hwf hne, rfl⟩
  cases d with
  | false => rfl
  | true => rfl

/-- C10 witness: in the two-pending state, scheduling and discarding
resource 5 leave the entry and timer of resource 0 untouched. -/
theorem per_resource_frame_witness :
    lookupPending (backupModel sTwoPending 5 true 300) 0 =
      lookupPending sTwoPending 0 ∧
    timersFor 0 (discardBackup sTwoPending 5) = timersFor 0 sTwoPending := by
  have h := per_resource_frame sTwoPending 5 0 true 300 (by decide) (by decide)
  exact ⟨h.1, h.2.2.2.2.1⟩

end BackupTrackerSpec
